import Mathlib

/-!
Shallow embedding of the Bioloid bus layer (`src/bioloid/bus.py` of
karavana/karavana_bioloid3) in Lean 4, together with theorems settling the
specification claims about it.

Modelling conventions:
* Bytes are `Nat`s; Python's `bytearray` cell assignment demands values in
  `0..255`, so theorems that quantify over "frames the bus actually writes"
  carry byte-range hypotheses where that matters.
* Python exceptions become `Except PyErr`.  `PyErr.valueError` and
  `PyErr.indexError` model the builtin exceptions raised by `sync_write` /
  `send_write`; `PyErr.busError e` models `bioloid.bus.BusError(e)`.
* The transport (`serial_port`) is external: each operation returns the list
  of frames handed to `write_packet`, the number of `read_status_packet`
  calls it performed, and its result.  The outcome of a
  `read_status_packet` call is an explicit parameter
  (`Except ErrorCode Packet`): `Except.error e` models the call raising
  `BusError(e)`, `Except.ok pkt` models it returning a parsed packet.
* `bioloid/packet.py` is not part of the visible sources; the identities it
  provides (`Id.BROADCAST`, the `Command` codes, `ErrorCode`, `Packet`) are
  modelled from the spec, as marked on each definition.
* Logging (`log`, `dump_mem`) has no protocol effect except that the
  `SHOW_COMMANDS` log line of `sync_write` evaluates `len(values[0])`
  before any validation; the `show` verbosity bitmask is therefore a
  parameter of `sync_write` only, and elsewhere only gates output that the
  model does not need to record.
-/

namespace Bioloid

/-- Modelled from the spec: `bioloid/packet.py` is not in the sources.
`ErrorCode` values seen by the bus layer: success, the parser's internal
"still assembling" marker, transport timeout, checksum mismatch, and a
device-reported status fault (the spec leaves the fixed priority order for
resolving several fault bits open, so a fault is modelled as carrying its
resolved status byte). -/
inductive ErrorCode where
  | NONE : ErrorCode
  | NOT_DONE : ErrorCode
  | TIMEOUT : ErrorCode
  | CHECKSUM : ErrorCode
  | DEVICE : Nat → ErrorCode
  deriving DecidableEq, Repr

/-- Modelled from the spec: a completed status packet as returned by
`read_status_packet` — device id, resolved error code, response params. -/
structure Packet where
  dev_id : Nat
  err : ErrorCode
  params : List Nat
  deriving DecidableEq, Repr

/-- Python exceptions escaping the bus layer: `ValueError`, `IndexError`
and `bioloid.bus.BusError(code)`. -/
inductive PyErr where
  | valueError : PyErr
  | indexError : PyErr
  | busError : ErrorCode → PyErr
  deriving DecidableEq, Repr

/-- Modelled from the spec: `packet.Id.BROADCAST`, the reserved broadcast
device id ("canonically the highest reserved value in the id space";
`0xFE` in the bioloid protocol the spec references). -/
def BROADCAST : Nat := 0xfe

/-- Modelled from the spec: the outbound command codes of
`packet.Command`.  The spec's round-trip example pins `WRITE = 0x03`;
the remaining values follow the bioloid protocol the spec references. -/
def Command.PING : Nat := 0x01
def Command.READ : Nat := 0x02
def Command.WRITE : Nat := 0x03
def Command.REG_WRITE : Nat := 0x04
def Command.ACTION : Nat := 0x05
def Command.RESET : Nat := 0x06
def Command.SYNC_WRITE : Nat := 0x83

/-- `Bus.SHOW_COMMANDS` verbosity bit. -/
def SHOW_COMMANDS : Nat := 1

/-- `Bus.SHOW_PACKETS` verbosity bit. -/
def SHOW_PACKETS : Nat := 2

/-- `Bus.fill_and_write_packet(dev_id, cmd, data)`: the frame handed to
`serial_port.write_packet`.  Mirrors the source: two `0xff` marker bytes,
`dev_id`, a length byte `2` bumped by `len(data)` when data is present,
`cmd`, the data bytes, then the checksum `~sum(pkt_bytes[2:-1]) & 0xff`
(for a nonnegative `s`, Python's `~s & 0xff` is `255 - s % 256`).
The `SHOW_PACKETS`-gated `dump_mem` call only logs the already-built frame
and is not recorded. -/
def fill_and_write_packet (dev_id cmd : Nat) (data : Option (List Nat)) : List Nat :=
  let payload := data.getD []
  let len_byte := 2 + payload.length
  let core := dev_id :: len_byte :: cmd :: payload
  0xff :: 0xff :: (core ++ [255 - core.sum % 256])

/-- `Bus.send_write(dev_id, offset, data, deferred)`: the frame written, or
the exception raised while building the parameter block.  The source does
`pkt_data = bytearray(len(data)); pkt_data[0] = offset; pkt_data[1:] = data`,
so for nonempty `data` the parameter block is `offset :: data`, and for
empty `data` the `pkt_data[0]` assignment raises `IndexError` on the empty
bytearray before anything is written. -/
def send_write (dev_id offset : Nat) (data : List Nat) (deferred : Bool) :
    Except PyErr (List Nat) :=
  match data with
  | [] => Except.error PyErr.indexError
  | _ :: _ =>
      Except.ok (fill_and_write_packet dev_id
        (if deferred then Command.REG_WRITE else Command.WRITE)
        (some (offset :: data)))

/-- `Bus.action()`: broadcasts an ACTION frame; no status read. -/
def action : List (List Nat) × Nat × Except PyErr Unit :=
  ([fill_and_write_packet BROADCAST Command.ACTION none], 0, Except.ok ())

/-- `Bus.ping(dev_id)` given the outcome `ro` of its one
`read_status_packet` call: sends a PING frame, then maps a TIMEOUT
`BusError` to `false`, success to `true`, and re-raises any other
`BusError`. -/
def ping (dev_id : Nat) (ro : Except ErrorCode Packet) :
    List (List Nat) × Nat × Except PyErr Bool :=
  let frame := fill_and_write_packet dev_id Command.PING none
  match ro with
  | Except.ok _ => ([frame], 1, Except.ok true)
  | Except.error e =>
      ([frame], 1,
        if e = ErrorCode.TIMEOUT then Except.ok false
        else Except.error (PyErr.busError e))

/-- `Bus.write(dev_id, offset, data, deferred)` given the outcome `ro` of
the `read_status_packet` call it performs for non-broadcast ids: sends via
`send_write`, then for the broadcast id returns `ErrorCode.NONE` without
reading; otherwise reads one status packet and returns its error code. -/
def write (dev_id offset : Nat) (data : List Nat) (deferred : Bool)
    (ro : Except ErrorCode Packet) :
    List (List Nat) × Nat × Except PyErr ErrorCode :=
  match send_write dev_id offset data deferred with
  | Except.error e => ([], 0, Except.error e)
  | Except.ok frame =>
      if dev_id = BROADCAST then ([frame], 0, Except.ok ErrorCode.NONE)
      else
        match ro with
        | Except.ok pkt => ([frame], 1, Except.ok pkt.err)
        | Except.error e => ([frame], 1, Except.error (PyErr.busError e))

/-- `Bus.reset(dev_id)` given the outcome `ro` of the
`read_status_packet` call it performs for non-broadcast ids. -/
def reset (dev_id : Nat) (ro : Except ErrorCode Packet) :
    List (List Nat) × Nat × Except PyErr ErrorCode :=
  let frame := fill_and_write_packet dev_id Command.RESET none
  if dev_id = BROADCAST then ([frame], 0, Except.ok ErrorCode.NONE)
  else
    match ro with
    | Except.ok pkt => ([frame], 1, Except.ok pkt.err)
    | Except.error e => ([frame], 1, Except.error (PyErr.busError e))

/-- `Bus.sync_write(dev_ids, offset, values)` under verbosity `show_`,
returning the frame handed to the transport or the exception raised first.
Mirrors the source order: the `SHOW_COMMANDS` log line evaluates
`len(values[0])` (raising `IndexError` when `values` is empty), then the
`len(dev_ids) != len(values)` check raises `ValueError`, then
`bytes_per_id = len(values[0])` raises `IndexError` on empty `values`,
then the per-id loop raises `ValueError` on a length mismatch; only after
all of that is the broadcast SYNC_WRITE frame written. -/
def sync_write (show_ : Nat) (dev_ids : List Nat) (offset : Nat)
    (values : List (List Nat)) : Except PyErr (List Nat) :=
  if show_ &&& SHOW_COMMANDS ≠ 0 ∧ values = [] then Except.error PyErr.indexError
  else if dev_ids.length ≠ values.length then Except.error PyErr.valueError
  else
    match values with
    | [] => Except.error PyErr.indexError
    | v0 :: _ =>
        let bytes_per_id := v0.length
        if values.all (fun v => v.length = bytes_per_id) then
          let data := offset :: bytes_per_id ::
            (List.zip dev_ids values).flatMap (fun p => p.1 :: p.2)
          Except.ok (fill_and_write_packet BROADCAST Command.SYNC_WRITE (some data))
        else Except.error PyErr.valueError

/-- C1: every frame built by `fill_and_write_packet` satisfies the checksum
invariant — the bytes from the device id through the checksum sum to `255`
mod `256`, and the checksum byte is `255` minus the mod-`256` sum of the
bytes from the device id through the last payload byte. -/
theorem checksum_invariant (dev_id cmd : Nat) (data : Option (List Nat)) :
    (((fill_and_write_packet dev_id cmd data).drop 2).sum) % 256 = 255 ∧
    (fill_and_write_packet dev_id cmd data).getLast? =
      some (255 - (dev_id + (2 + (data.getD []).length) + cmd + (data.getD []).sum) % 256) := by
  constructor
  · have h : ((fill_and_write_packet dev_id cmd data).drop 2).sum =
        (dev_id + (2 + (data.getD []).length) + cmd + (data.getD []).sum) +
          (255 - (dev_id + (2 + (data.getD []).length) + cmd + (data.getD []).sum) % 256) := by
      simp [fill_and_write_packet]
      ring_nf
    set s := dev_id + (2 + (data.getD []).length) + cmd + (data.getD []).sum with hs
    rw [h]
    have h1 : s % 256 < 256 := Nat.mod_lt _ (by norm_num)
    have h2 : 256 * (s / 256) + s % 256 = s := Nat.div_add_mod s 256
    have h3 : s + (255 - s % 256) = 256 * (s / 256) + 255 := by omega
    rw [h3]
    omega
  · have hfr : fill_and_write_packet dev_id cmd data =
        ([0xff, 0xff, dev_id, 2 + (data.getD []).length, cmd] ++ data.getD []) ++
          [255 - (dev_id + (2 + (data.getD []).length) + cmd + (data.getD []).sum) % 256] := by
      simp [fill_and_write_packet]
      ring_nf
    rw [hfr, List.getLast?_concat]

/-- C2: every frame built by `fill_and_write_packet(dev_id, cmd, data)`
has the wire layout `0xFF 0xFF dev_id length cmd payload... checksum`,
where the payload is `data` (empty for `None`) and the length byte is
`2 + len(payload)`. -/
theorem frame_layout (dev_id cmd : Nat) (data : Option (List Nat)) :
    (fill_and_write_packet dev_id cmd data).length = 6 + (data.getD []).length ∧
    (fill_and_write_packet dev_id cmd data).take 2 = [0xff, 0xff] ∧
    (fill_and_write_packet dev_id cmd data).get? 2 = some dev_id ∧
    (fill_and_write_packet dev_id cmd data).get? 3 = some (2 + (data.getD []).length) ∧
    (fill_and_write_packet dev_id cmd data).get? 4 = some cmd ∧
    ((fill_and_write_packet dev_id cmd data).drop 5).dropLast = data.getD [] ∧
    ∃ chk, fill_and_write_packet dev_id cmd data =
      [0xff, 0xff, dev_id, 2 + (data.getD []).length, cmd] ++ (data.getD []) ++ [chk] := by
  refine ⟨?_, ?_, ?_, ?_, ?_, ?_, ?_⟩
  · simp [fill_and_write_packet]; omega
  · simp [fill_and_write_packet]
  · simp [fill_and_write_packet]
  · simp [fill_and_write_packet]
  · simp [fill_and_write_packet]
  · simp [fill_and_write_packet, List.dropLast_append_of_ne_nil]
  · refine ⟨255 - (dev_id + (2 + (data.getD []).length) + cmd + (data.getD []).sum) % 256, ?_⟩
    simp [fill_and_write_packet]
    ring_nf

/-- C3: a non-deferred `send_write` with `dev_id = 1`, `offset = 0x18`,
`data = [0x01, 0x00]` hands exactly `FF FF 01 05 03 18 01 00 DD` to the
transport: the payload is the offset followed by the data bytes and the
checksum is `0xDD`. -/
theorem write_roundtrip :
    send_write 1 0x18 [0x01, 0x00] false =
      Except.ok [0xff, 0xff, 0x01, 0x05, 0x03, 0x18, 0x01, 0x00, 0xdd] ∧
    ∀ ro : Except ErrorCode Packet,
      (write 1 0x18 [0x01, 0x00] false ro).1 =
        [[0xff, 0xff, 0x01, 0x05, 0x03, 0x18, 0x01, 0x00, 0xdd]] := by
  constructor
  · rfl
  · intro ro
    cases ro <;> rfl

/-- C4: `ping(dev_id)` returns `false` exactly when its status read fails
with TIMEOUT, returns `true` whenever a status frame is read successfully,
and re-raises any `BusError` whose code is not TIMEOUT unchanged. -/
theorem ping_timeout_behaviour (dev_id : Nat) (ro : Except ErrorCode Packet) :
    ((ping dev_id ro).2.2 = Except.ok false ↔ ro = Except.error ErrorCode.TIMEOUT) ∧
    (∀ pkt, ro = Except.ok pkt → (ping dev_id ro).2.2 = Except.ok true) ∧
    (∀ e, e ≠ ErrorCode.TIMEOUT → ro = Except.error e →
      (ping dev_id ro).2.2 = Except.error (PyErr.busError e)) := by
  refine ⟨?_, ?_, ?_⟩
  · cases ro with
    | ok pkt => simp [ping]
    | error e =>
        by_cases h : e = ErrorCode.TIMEOUT
        · subst h; simp [ping]
        · simp [ping, h]
  · intro pkt h; subst h; rfl
  · intro e he h; subst h; simp [ping, he]

/-- Witness for C4 at concrete read outcomes: timeout, a parsed packet,
and a checksum failure. -/
theorem ping_timeout_behaviour_witness :
    (ping 1 (Except.error ErrorCode.TIMEOUT)).2.2 = Except.ok false ∧
    (ping 1 (Except.ok ⟨1, ErrorCode.NONE, []⟩)).2.2 = Except.ok true ∧
    (ping 1 (Except.error ErrorCode.CHECKSUM)).2.2 =
      Except.error (PyErr.busError ErrorCode.CHECKSUM) :=
  ⟨(ping_timeout_behaviour 1 (Except.error ErrorCode.TIMEOUT)).1.mpr rfl,
   (ping_timeout_behaviour 1 (Except.ok ⟨1, ErrorCode.NONE, []⟩)).2.1
     ⟨1, ErrorCode.NONE, []⟩ rfl,
   (ping_timeout_behaviour 1 (Except.error ErrorCode.CHECKSUM)).2.2
     ErrorCode.CHECKSUM (by decide) rfl⟩

/-- C5 counterexample: `write` at the broadcast id with empty data does
not return NONE — `send_write` raises `IndexError` assigning
`pkt_data[0]` on the empty `bytearray(0)`, and no frame is written. -/
theorem broadcast_write_empty_cex :
    write BROADCAST 0 [] false (Except.error ErrorCode.TIMEOUT) =
      ([], 0, Except.error PyErr.indexError) ∧
    (write BROADCAST 0 [] false (Except.error ErrorCode.TIMEOUT)).2.2 ≠
      Except.ok ErrorCode.NONE := by
  refine ⟨rfl, ?_⟩
  intro h
  simp [write, send_write] at h

/-- C5 (amended to nonempty data for `write`): for every offset, nonempty
data, deferred flag and any read outcome, `write` and `reset` at the
broadcast id, and `action`, write exactly their one frame, perform zero
status reads, and return the success code NONE (resp. unit for `action`)
without raising. -/
theorem broadcast_no_response (offset : Nat) (data : List Nat) (deferred : Bool)
    (ro ro' : Except ErrorCode Packet) (h : data ≠ []) :
    write BROADCAST offset data deferred ro =
      ([fill_and_write_packet BROADCAST
          (if deferred then Command.REG_WRITE else Command.WRITE)
          (some (offset :: data))], 0, Except.ok ErrorCode.NONE) ∧
    reset BROADCAST ro' =
      ([fill_and_write_packet BROADCAST Command.RESET none], 0,
        Except.ok ErrorCode.NONE) ∧
    action = ([fill_and_write_packet BROADCAST Command.ACTION none], 0,
      Except.ok ()) := by
  refine ⟨?_, ?_, rfl⟩
  · match data, h with
    | d :: ds, _ => simp [write, send_write]
  · simp [reset]

/-- Witness for C5 (amended) at a concrete broadcast write. -/
theorem broadcast_no_response_witness :
    write BROADCAST 0x18 [0x01] false (Except.error ErrorCode.TIMEOUT) =
      ([fill_and_write_packet BROADCAST Command.WRITE (some [0x18, 0x01])], 0,
        Except.ok ErrorCode.NONE) := by
  have h := broadcast_no_response 0x18 [0x01] false
    (Except.error ErrorCode.TIMEOUT) (Except.error ErrorCode.TIMEOUT) (by decide)
  simpa using h.1

/-- C6: at verbosity `SHOW_COMMANDS`, `sync_write([1], 0x1E, [])` — a
dimension violation, `len(dev_ids) = 1 ≠ 0 = len(values)` — raises
`IndexError` (the log line evaluates `len(values[0])` before the
validation check), not the `ValueError` the claim and the function's own
docstring promise; with logging off the same call raises `ValueError`.
Neither run hands any bytes to the transport. -/
theorem sync_write_validation_eval :
    sync_write SHOW_COMMANDS [1] 0x1E [] = Except.error PyErr.indexError ∧
    sync_write 0 [1] 0x1E [] = Except.error PyErr.valueError := by
  constructor <;> rfl

/-- C8: the verbosity setting is not purely observational — with
`dev_ids = [1]`, `offset = 0x1E`, `values = []`, the `SHOW_COMMANDS` run
and the quiet run of `sync_write` raise different exceptions. -/
theorem show_affects_sync_write :
    sync_write SHOW_COMMANDS [1] 0x1E [] ≠ sync_write 0 [1] 0x1E [] := by
  intro h
  simp [sync_write, SHOW_COMMANDS] at h

/-- C9: `sync_write` with `values = []` and `dev_ids = []` passes the
dimension check and fails indexing `values[0]` — an `IndexError`, not the
documented validation `ValueError` — and no bytes are written (there is no
frame result).  This holds at every verbosity: with `SHOW_COMMANDS` set
the log line's `values[0]` raises the same `IndexError` even earlier. -/
theorem sync_write_empty_values (show_ offset : Nat) :
    sync_write show_ [] offset [] = Except.error PyErr.indexError := by
  unfold sync_write
  split
  · rfl
  · rfl

/-- `Bus.scan`'s `end_id`: `start_id + num_ids - 1` in Python integer
arithmetic (hence `Int`), clipped to `BROADCAST - 1`. -/
def scan_end_id (start_id num_ids : Nat) : Int :=
  min ((start_id : Int) + num_ids - 1) ((BROADCAST : Int) - 1)

/-- The id range iterated by `Bus.scan`: `range(start_id, end_id + 1)`. -/
def scan_ids (start_id num_ids : Nat) : List Nat :=
  if scan_end_id start_id num_ids < start_id then []
  else List.range' start_id ((scan_end_id start_id num_ids).toNat - start_id + 1)

/-- Observable events of a `scan`: a ping issued for an id, and the
`dev_found` / `dev_missing` callback invocations. -/
inductive ScanEvent where
  | pinged : Nat → ScanEvent
  | found : Nat → ScanEvent
  | missing : Nat → ScanEvent
  deriving DecidableEq, Repr

/-- The loop body of `Bus.scan` over an id list: `p id` is the outcome of
`self.ping(dev_id)` (`Except.error` models `ping` raising a `BusError`);
the event list records each ping and each callback invocation in order,
and the Bool accumulator is `some_dev_found`.  A raised ping aborts the
loop at once. -/
def scan_loop (p : Nat → Except PyErr Bool) :
    List Nat → Bool → List ScanEvent × Except PyErr Bool
  | [], found => ([], Except.ok found)
  | id :: rest, found =>
      match p id with
      | Except.error e => ([ScanEvent.pinged id], Except.error e)
      | Except.ok true =>
          let r := scan_loop p rest true
          (ScanEvent.pinged id :: ScanEvent.found id :: r.1, r.2)
      | Except.ok false =>
          let r := scan_loop p rest found
          (ScanEvent.pinged id :: ScanEvent.missing id :: r.1, r.2)

/-- `Bus.scan(start_id, num_ids, dev_found, dev_missing)` given the
per-id ping outcome `p`. -/
def scan (p : Nat → Except PyErr Bool) (start_id num_ids : Nat) :
    List ScanEvent × Except PyErr Bool :=
  scan_loop p (scan_ids start_id num_ids) false

lemma filter_range'_lt (B n : Nat) : ∀ s : Nat,
    (List.range' s n).filter (fun id => decide (id < B)) =
      List.range' s (min n (B - s)) := by
  induction n with
  | zero => intro s; simp
  | succ n ih =>
      intro s
      rw [List.range'_succ]
      by_cases h : s < B
      · rw [List.filter_cons_of_pos (by simpa using h), ih (s + 1)]
        have h1 : min (n + 1) (B - s) = min n (B - (s + 1)) + 1 := by omega
        rw [h1, List.range'_succ]
      · rw [List.filter_cons_of_neg (by simpa using h), ih (s + 1)]
        have h2 : min n (B - (s + 1)) = 0 := by omega
        have h3 : min (n + 1) (B - s) = 0 := by omega
        rw [h2, h3]
        rfl

lemma scan_ids_eq (s n : Nat) :
    scan_ids s n = List.range' s (min n (BROADCAST - s)) := by
  unfold scan_ids scan_end_id
  rcases le_total ((s : Int) + n - 1) ((BROADCAST : Int) - 1) with h | h
  · rw [min_eq_left h]
    split
    · have hn : n = 0 := by omega
      simp [hn]
    · have h3 : min n (BROADCAST - s) = n := by
        unfold BROADCAST at h ⊢
        omega
      rw [h3]
      congr 1
      omega
  · rw [min_eq_right h]
    split
    · have h3 : min n (BROADCAST - s) = 0 := by
        unfold BROADCAST at *
        omega
      simp [h3]
    · have h3 : min n (BROADCAST - s) = BROADCAST - s := by
        unfold BROADCAST at *
        omega
      rw [h3]
      congr 1
      unfold BROADCAST at *
      omega

lemma range'_pairwise_lt (n : Nat) : ∀ s : Nat,
    List.Pairwise (fun a b => a < b) (List.range' s n) := by
  induction n with
  | zero => intro s; simp
  | succ n ih =>
      intro s
      rw [List.range'_succ]
      refine List.Pairwise.cons ?_ (ih (s + 1))
      intro b hb
      have := (List.mem_range'_1.mp hb).1
      omega

lemma scan_loop_ok (resp : Nat → Bool) : ∀ (ids : List Nat) (b : Bool),
    scan_loop (fun id => Except.ok (resp id)) ids b =
      (ids.flatMap (fun id => ScanEvent.pinged id ::
          [if resp id then ScanEvent.found id else ScanEvent.missing id]),
        Except.ok (b || ids.any resp)) := by
  intro ids
  induction ids with
  | nil => intro b; simp [scan_loop]
  | cons id rest ih =>
      intro b
      cases h : resp id with
      | true => simp [scan_loop, h, ih]
      | false => simp [scan_loop, h, ih]

/-- C7: `scan(start_id, num_ids)` pings exactly the ids of
`[start_id, start_id + num_ids - 1]` clipped below the broadcast id, in
strictly ascending order with each ping resolved (and its callback
delivered) before the next ping; for each id the `dev_found` callback
fires when the ping succeeded and `dev_missing` otherwise; the result is
`true` iff at least one id responded. -/
theorem scan_spec (start_id num_ids : Nat) (resp : Nat → Bool) :
    scan (fun id => Except.ok (resp id)) start_id num_ids =
      ((scan_ids start_id num_ids).flatMap (fun id => ScanEvent.pinged id ::
          [if resp id then ScanEvent.found id else ScanEvent.missing id]),
        Except.ok ((scan_ids start_id num_ids).any resp)) ∧
    scan_ids start_id num_ids =
      (List.range' start_id num_ids).filter (fun id => decide (id < BROADCAST)) ∧
    List.Pairwise (fun a b => a < b) (scan_ids start_id num_ids) := by
  refine ⟨?_, ?_, ?_⟩
  · rw [scan, scan_loop_ok]
    simp
  · rw [scan_ids_eq, filter_range'_lt]
  · rw [scan_ids_eq]
    exact range'_pairwise_lt _ _

lemma scan_loop_error (p : Nat → Except PyErr Bool) (id₀ : Nat) (ids₂ : List Nat)
    (err : PyErr) (hp : p id₀ = Except.error err) :
    ∀ (ids₁ : List Nat) (b : Bool), (∀ id ∈ ids₁, ∃ bl, p id = Except.ok bl) →
      scan_loop p (ids₁ ++ id₀ :: ids₂) b =
        ((scan_loop p ids₁ b).1 ++ [ScanEvent.pinged id₀], Except.error err) := by
  intro ids₁
  induction ids₁ with
  | nil => intro b h; simp [scan_loop, hp]
  | cons id rest ih =>
      intro b h
      obtain ⟨bl, hbl⟩ := h id (by simp)
      have hrest : ∀ i ∈ rest, ∃ bl, p i = Except.ok bl :=
        fun i hi => h i (by simp [hi])
      cases bl with
      | true => simp [scan_loop, hbl, ih true hrest]
      | false => simp [scan_loop, hbl, ih b hrest]

/-- C10: if, mid-`scan`, the ping of `id₀` raises a `BusError` whose code
is not TIMEOUT (all earlier ids having pinged without raising), the scan
stops with exactly that exception: the failing id gets no callback, the
later ids are neither pinged nor given callbacks, and the events for the
earlier ids are exactly those of scanning the earlier ids alone. -/
theorem scan_error_propagates (ro : Nat → Except ErrorCode Packet)
    (start_id num_ids : Nat) (ids₁ ids₂ : List Nat) (id₀ : Nat) (e : ErrorCode)
    (hdecomp : scan_ids start_id num_ids = ids₁ ++ id₀ :: ids₂)
    (h₁ : ∀ id ∈ ids₁, ∃ bl, (ping id (ro id)).2.2 = Except.ok bl)
    (h₂ : ro id₀ = Except.error e) (h₃ : e ≠ ErrorCode.TIMEOUT) :
    scan (fun id => (ping id (ro id)).2.2) start_id num_ids =
      ((scan_loop (fun id => (ping id (ro id)).2.2) ids₁ false).1 ++
          [ScanEvent.pinged id₀],
        Except.error (PyErr.busError e)) := by
  have hp : (ping id₀ (ro id₀)).2.2 = Except.error (PyErr.busError e) := by
    rw [h₂]
    simp [ping, h₃]
  rw [scan, hdecomp]
  exact scan_loop_error _ id₀ ids₂ (PyErr.busError e) hp ids₁ false h₁

/-- Witness for C10: scanning ids 0..2 where id 1's status read fails
with CHECKSUM — id 0 is found, id 1 is pinged and the error propagates,
id 2 is never pinged. -/
theorem scan_error_propagates_witness :
    scan (fun id => (ping id (if id = 1
        then (Except.error ErrorCode.CHECKSUM : Except ErrorCode Packet)
        else Except.ok ⟨id, ErrorCode.NONE, []⟩)).2.2) 0 3 =
      ([ScanEvent.pinged 0, ScanEvent.found 0, ScanEvent.pinged 1],
        Except.error (PyErr.busError ErrorCode.CHECKSUM)) := by
  have h := scan_error_propagates
    (fun id => if id = 1
      then (Except.error ErrorCode.CHECKSUM : Except ErrorCode Packet)
      else Except.ok ⟨id, ErrorCode.NONE, []⟩)
    0 3 [0] [2] 1 ErrorCode.CHECKSUM
    (by decide)
    (by
      intro id hid
      simp only [List.mem_singleton] at hid
      subst hid
      exact ⟨true, rfl⟩)
    rfl
    (by decide)
  rw [h]
  rfl

end Bioloid
